import Mathlib

/-!
Verification of the bundle-lifecycle and fee-estimation client
implemented in jito_py/searcher.py.

The development shallowly embeds the client: decoded JSON bodies become
the inductive type J, Python runtime exceptions become the inductive
PyErr (one constructor per kind of exception the embedded code can
raise), fallible code returns Except PyErr, and the network is mocked by
passing the decoded response body to each operation while the request
URL each operation would use is exposed as a separate function.
-/

set_option autoImplicit false
set_option exponentiation.threshold 3000
set_option maxRecDepth 8000

/-- Sign-magnitude binary floating-point value: (if neg then -1 else 1) * m * 2 ^ e.
Results of rounding always satisfy m < 2 ^ 53 (IEEE 754 binary64 significand). -/
structure D where
  neg : Bool
  m : Nat
  e : Int
  deriving DecidableEq, Repr

/-- A CPython float: a finite binary64 value, an infinity, or a NaN. -/
inductive PyF where
  | fin (x : D)
  | inf
  | ninf
  | nan
  deriving DecidableEq, Repr

/-- Decoded JSON value as produced by response.json() / json.loads:
objects are association lists with string keys, numbers are either
Python ints or Python floats. -/
inductive J where
  | null
  | bool (b : Bool)
  | int (z : Int)
  | float (x : PyF)
  | str (s : String)
  | list (xs : List J)
  | dict (kvs : List (String × J))

/-- Kinds of exception the embedded code can raise.  The generic
Exception raise sites of searcher.py are kept apart by their message:
protocolError is the raise in Searcher._extract_result (carrying the
method name and the raw response interpolated into its message), and
noDataError is the raise in Searcher.get_tip_floors on an empty body.
valueError, typeError, keyError, indexError, attributeError and
overflowError are the corresponding Python builtin exception classes
raised by the runtime primitives the code calls. -/
inductive PyErr where
  | protocolError (method : String) (response : J)
  | noDataError
  | valueError
  | typeError
  | keyError
  | indexError
  | attributeError
  | overflowError

/-- First value bound to the given key, as in a Python dict lookup
(dict keys are unique, so first matches are the only matches). -/
def jLookup (kvs : List (String × J)) (k : String) : Option J :=
  match kvs with
  | [] => none
  | (k', v) :: rest => if k' == k then some v else jLookup rest k

/-- Python data.get(k): None when the key is absent; AttributeError when
the receiver is not a dict (no get attribute). -/
def pyDictGet (data : J) (k : String) : Except PyErr (Option J) :=
  match data with
  | .dict kvs => .ok (jLookup kvs k)
  | _ => .error .attributeError

/-- Python o[k] with a string key k: KeyError when a dict lacks the key,
TypeError when o is a str or list (indices must be integers) or any
other non-dict value. -/
def jGetItem (o : J) (k : String) : Except PyErr J :=
  match o with
  | .dict kvs =>
    match jLookup kvs k with
    | some v => .ok v
    | none => .error .keyError
  | _ => .error .typeError

/-- Prefix test on character lists. -/
def isPrefixC : List Char → List Char → Bool
  | [], _ => true
  | _ :: _, [] => false
  | a :: as, b :: bs => a == b && isPrefixC as bs

/-- Substring test on character lists (Python's in-operator on str). -/
def isInfixC (p : List Char) : List Char → Bool
  | [] => p.isEmpty
  | c :: rest => isPrefixC p (c :: rest) || isInfixC p rest

/-- Whether a finite float is zero (used by Python truthiness). -/
def pyfIsZero : PyF → Bool
  | .fin d => d.m == 0
  | _ => false

/-- Python truthiness: not data. -/
def jFalsy : J → Bool
  | .null => true
  | .bool b => !b
  | .int z => z == 0
  | .float x => pyfIsZero x
  | .str s => s.data.isEmpty
  | .list xs => xs.isEmpty
  | .dict kvs => kvs.isEmpty

/-- Python data[0]: head of a list, first character of a str,
KeyError on a dict (0 is not one of its string keys in this model),
IndexError on an empty sequence, TypeError otherwise. -/
def pyIndex0 : J → Except PyErr J
  | .list (x :: _) => .ok x
  | .list [] => .error .indexError
  | .str s =>
    match s.data with
    | c :: _ => .ok (.str (String.mk [c]))
    | [] => .error .indexError
  | .dict _ => .error .keyError
  | .null | .bool _ | .int _ | .float _ => .error .typeError

/-- Python iteration (for x in o): elements of a list, single-character
strings of a str, keys of a dict, TypeError otherwise. -/
def pyIter : J → Except PyErr (List J)
  | .list xs => .ok xs
  | .str s => .ok (s.data.map fun c => .str (String.mk [c]))
  | .dict kvs => .ok (kvs.map fun kv => .str kv.1)
  | .null | .bool _ | .int _ | .float _ => .error .typeError

/-- Python membership test for the string key "result"
(the expression: "result" in response): key lookup on a dict, element
equality on a list, substring search on a str, and TypeError on
non-container values. -/
def pyContainsResult : J → Except PyErr Bool
  | .dict kvs => .ok (jLookup kvs "result").isSome
  | .list xs =>
    .ok (xs.any fun x =>
      match x with
      | .str s => s == "result"
      | _ => false)
  | .str s => .ok (isInfixC "result".data s.data)
  | .null | .bool _ | .int _ | .float _ => .error .typeError

/-- Textual rendering of a PyF used inside interpolated error messages.
Finite values are shown in sign-magnitude binary form rather than the
shortest-roundtrip decimal form CPython's repr uses; only the fact that
the rendering is embedded into the message matters to the development. -/
def reprPyF : PyF → String
  | .fin d => (if d.neg then "-" else "") ++ toString d.m ++ "b2e" ++ toString d.e
  | .inf => "inf"
  | .ninf => "-inf"
  | .nan => "nan"

mutual

/-- Rendering of a decoded JSON value as interpolated into Python
f-strings: Python repr of the corresponding dict/list/str/int/bool/None
value (string escaping and shortest-roundtrip float formatting are not
reproduced). -/
def reprJ : J → String
  | .null => "None"
  | .bool b => if b then "True" else "False"
  | .int z => toString z
  | .float x => reprPyF x
  | .str s => "\x27" ++ s ++ "\x27"
  | .list xs => "[" ++ reprJList xs ++ "]"
  | .dict kvs => "\x7b" ++ reprJKVs kvs ++ "\x7d"

/-- Comma-separated rendering of list elements. -/
def reprJList : List J → String
  | [] => ""
  | [x] => reprJ x
  | x :: rest => reprJ x ++ ", " ++ reprJList rest

/-- Comma-separated rendering of dict entries. -/
def reprJKVs : List (String × J) → String
  | [] => ""
  | [(k, v)] => "\x27" ++ k ++ "\x27: " ++ reprJ v
  | (k, v) :: rest => "\x27" ++ k ++ "\x27: " ++ reprJ v ++ ", " ++ reprJKVs rest

end

/-- Message text of each embedded exception.  protocolError mirrors the
f-string at searcher.py line 65; noDataError mirrors the literal at
line 139; the builtin exception kinds keep just their class name. -/
def errMessage : PyErr → String
  | .protocolError method response =>
    "Error in " ++ method ++ " response: " ++ reprJ response
  | .noDataError => "No tip floor data available"
  | .valueError => "ValueError"
  | .typeError => "TypeError"
  | .keyError => "KeyError"
  | .indexError => "IndexError"
  | .attributeError => "AttributeError"
  | .overflowError => "OverflowError"

/-- Fuel-driven binary length so that kernel reduction never has to
unfold a well-founded fixpoint: bitLenAux fuel n counts how often n can
be halved before reaching 0, provided fuel bounds that count. -/
def bitLenAux : Nat → Nat → Nat
  | 0, _ => 0
  | fuel + 1, n => if n = 0 then 0 else bitLenAux fuel (n / 2) + 1

/-- Binary length of a natural number: 0 for 0, and the exponent b with
2 ^ (b - 1) <= n < 2 ^ b otherwise (fuel n + 1 always suffices). -/
def bitLen (n : Nat) : Nat :=
  bitLenAux (n + 1) n

/-- Round the fraction a / b (b > 0) to the nearest natural number,
ties going to the even neighbour (IEEE 754 default rounding). -/
def rnEven (a b : Nat) : Nat :=
  let q := a / b
  let r := a % b
  if 2 * r < b then q
  else if b < 2 * r then q + 1
  else if q % 2 = 0 then q else q + 1

/-- Whether 2 ^ ex <= n / d, decided exactly on integers. -/
def pow2Le (ex : Int) (n d : Nat) : Bool :=
  if 0 ≤ ex then decide (d * 2 ^ ex.toNat ≤ n) else decide (d ≤ n * 2 ^ (-ex).toNat)

/-- Floor of the base-2 logarithm of n / d for n, d >= 1. -/
def flog2 (n d : Nat) : Int :=
  let e0 : Int := (bitLen n : Int) - (bitLen d : Int)
  if pow2Le e0 n d then e0 else e0 - 1

/-- Whether the value m * 2 ^ q reaches 2 ^ 1024, the binary64 overflow
threshold for round-to-nearest. -/
def dOverflow (m : Nat) (q : Int) : Bool :=
  if 0 ≤ q then decide (2 ^ 1024 ≤ m * 2 ^ q.toNat) else decide (2 ^ (1024 - q).toNat ≤ m)

/-- Round the positive rational a / b (a, b >= 1) to the nearest
binary64 value, ties to even: the quantum is 2 ^ (E - 52) for a value
with floor log2 E, clamped at the subnormal quantum 2 ^ (-1074); none
means overflow to infinity. -/
def roundPosToD (a b : Nat) : Option D :=
  let e := flog2 a b
  let q := max (e - 52) (-1074)
  let m := if 0 ≤ q then rnEven a (b * 2 ^ q.toNat) else rnEven (a * 2 ^ (-q).toNat) b
  if dOverflow m q then none else some ⟨false, m, q⟩

/-- Nearest binary64 value to the signed rational (-1) ^ neg * a / b,
overflowing to the correspondingly signed infinity. -/
def mkD (neg : Bool) (a b : Nat) : PyF :=
  if a = 0 then .fin ⟨neg, 0, 0⟩
  else
    match roundPosToD a b with
    | some d => .fin { d with neg := neg }
    | none => if neg then .ninf else .inf

/-- Nearest binary64 value to the exact scaled integer
(-1) ^ neg * n * 2 ^ ex. -/
def roundScaled (neg : Bool) (n : Nat) (ex : Int) : PyF :=
  if 0 ≤ ex then mkD neg (n * 2 ^ ex.toNat) 1 else mkD neg n (2 ^ (-ex).toNat)

/-- IEEE 754 product of two finite binary64 values: the exact product is
rounded to nearest, ties to even. -/
def dMul (x y : D) : PyF :=
  roundScaled (xor x.neg y.neg) (x.m * y.m) (x.e + y.e)

/-- Whether a finite value is (positive or negative) zero. -/
def dIsZero (d : D) : Bool := d.m == 0

/-- CPython float multiplication, including the special values. -/
def pyfMul (x y : PyF) : PyF :=
  match x, y with
  | .nan, _ | _, .nan => .nan
  | .inf, .inf => .inf
  | .inf, .ninf | .ninf, .inf => .ninf
  | .ninf, .ninf => .inf
  | .inf, .fin d | .fin d, .inf =>
    if dIsZero d then .nan else if d.neg then .ninf else .inf
  | .ninf, .fin d | .fin d, .ninf =>
    if dIsZero d then .nan else if d.neg then .inf else .ninf
  | .fin a, .fin b => dMul a b

/-- CPython conversion of an int to a float: nearest binary64 value,
OverflowError when the int is too large to convert. -/
def pyFloatOfInt (z : Int) : Except PyErr D :=
  match mkD (decide (z < 0)) z.natAbs 1 with
  | .fin d => .ok d
  | _ => .error .overflowError

/-- CPython float * int (the expression f * (10 ** 9) in from_dict):
the int operand is converted to a float first, then the floats are
multiplied. -/
def pyMulInt (x : PyF) (z : Int) : Except PyErr PyF :=
  match pyFloatOfInt z with
  | .error e => .error e
  | .ok c => .ok (pyfMul x (.fin c))

/-- CPython int(f) for a float f: truncation toward zero;
OverflowError on infinities, ValueError on NaN. -/
def pyInt : PyF → Except PyErr Int
  | .fin d =>
    let mag : Nat := if 0 ≤ d.e then d.m * 2 ^ d.e.toNat else d.m / 2 ^ (-d.e).toNat
    .ok (if d.neg then -(mag : Int) else (mag : Int))
  | .inf | .ninf => .error .overflowError
  | .nan => .error .valueError

/-- Decimal digit test on ASCII codes. -/
def isDigitC (c : Char) : Bool :=
  decide (48 ≤ c.toNat) && decide (c.toNat ≤ 57)

/-- Numeric value of a decimal digit character. -/
def digitVal (c : Char) : Nat := c.toNat - 48

/-- Natural number denoted by a list of decimal digits. -/
def digitsToNat (ds : List Char) : Nat :=
  ds.foldl (fun a c => 10 * a + digitVal c) 0

/-- ASCII lower-casing on code points. -/
def lowerN (n : Nat) : Nat :=
  if 65 ≤ n ∧ n ≤ 90 then n + 32 else n

/-- Whitespace as stripped by CPython's float(str) conversion. -/
def isSpaceC (c : Char) : Bool :=
  c.toNat == 32 || (decide (9 ≤ c.toNat) && decide (c.toNat ≤ 13))

/-- Strip leading and trailing whitespace from a character list. -/
def stripC (l : List Char) : List Char :=
  ((l.dropWhile isSpaceC).reverse.dropWhile isSpaceC).reverse

/-- Case-insensitive comparison of a character list against an ASCII
keyword. -/
def lowEq (l : List Char) (w : List Char) : Bool :=
  (l.map fun c => lowerN c.toNat) == w.map fun c => lowerN c.toNat

/-- CPython float(str): optional surrounding whitespace, optional sign,
then an infinity/nan keyword or a decimal literal
digits [. digits] [e [sign] digits] with at least one digit before the
exponent part; the denoted decimal value is rounded to the nearest
binary64 value.  Digit-group underscores accepted by CPython since 3.6
are not modelled. -/
def pyFloatOfStr (s : String) : Except PyErr PyF :=
  let l0 := stripC s.data
  let signed : Bool × List Char :=
    match l0 with
    | c :: rest =>
      if c == '-' then (true, rest) else if c == '+' then (false, rest) else (false, l0)
    | [] => (false, l0)
  let neg := signed.1
  let l := signed.2
  if lowEq l "inf".data || lowEq l "infinity".data then
    .ok (if neg then .ninf else .inf)
  else if lowEq l "nan".data then .ok .nan
  else
    let ipRest := l.span isDigitC
    let ip := ipRest.1
    let fpRest : List Char × List Char :=
      match ipRest.2 with
      | c :: r => if c == '.' then r.span isDigitC else ([], ipRest.2)
      | [] => ([], ipRest.2)
    let fp := fpRest.1
    if (ip ++ fp).isEmpty then .error .valueError
    else
      let expRes : Except PyErr Int :=
        match fpRest.2 with
        | c :: r =>
          if lowerN c.toNat == 101 then
            let esigned : Bool × List Char :=
              match r with
              | c2 :: r2 =>
                if c2 == '-' then (true, r2) else if c2 == '+' then (false, r2) else (false, r)
              | [] => (false, r)
            let edRest := esigned.2.span isDigitC
            if edRest.1.isEmpty || !edRest.2.isEmpty then .error .valueError
            else
              let ev : Int := digitsToNat edRest.1
              .ok (if esigned.1 then -ev else ev)
          else .error .valueError
        | [] => .ok 0
      match expRes with
      | .error e => .error e
      | .ok ev =>
        let mant := digitsToNat (ip ++ fp)
        let decExp : Int := ev - fp.length
        if 0 ≤ decExp then .ok (mkD neg (mant * 10 ^ decExp.toNat) 1)
        else .ok (mkD neg mant (10 ^ (-decExp).toNat))

/-- CPython float(x) on a value obtained from dict.get: TypeError on
None (absent key), containers and null; parse on str; exact int and
bool conversion. -/
def pyFloatObj : Option J → Except PyErr PyF
  | none => .error .typeError
  | some (.str s) => pyFloatOfStr s
  | some (.int z) => (pyFloatOfInt z).map .fin
  | some (.float x) => .ok x
  | some (.bool b) => .ok (.fin ⟨false, if b then 1 else 0, 0⟩)
  | some .null | some (.list _) | some (.dict _) => .error .typeError

/-- Naive or UTC timestamp as produced by datetime.strptime and
datetime.replace(tzinfo=timezone.utc): the utc flag records whether the
tzinfo is timezone.utc (true) or absent (false). -/
structure Datetime where
  year : Nat
  month : Nat
  day : Nat
  hour : Nat
  minute : Nat
  second : Nat
  utc : Bool
  deriving DecidableEq, Repr

/-- Exactly four decimal digits, as compiled by CPython's
_strptime.TimeRE for the %Y directive. -/
def parse4D : List Char → Option (Nat × List Char)
  | a :: b :: c :: d :: rest =>
    if isDigitC a && isDigitC b && isDigitC c && isDigitC d then
      some (1000 * digitVal a + 100 * digitVal b + 10 * digitVal c + digitVal d, rest)
    else none
  | _ => none

/-- One- or two-digit numeric field, as compiled by _strptime.TimeRE for
%m, %d, %H, %M and %S.  The regex lists its two-digit alternatives
before the one-digit one; since in the format string every numeric
field is followed by a non-digit literal, the leftmost regex match is
the local greedy one encoded here: take two digits whenever their value
is admitted by a two-digit alternative, else one digit when admitted by
the one-digit alternative (backtracking from a successful two-digit
match can never help, because the one-digit continuation would then
have to match the following non-digit literal against a digit). -/
def parse21 (twoOk oneOk : Nat → Bool) : List Char → Option (Nat × List Char)
  | c1 :: c2 :: rest =>
    if isDigitC c1 && isDigitC c2 && twoOk (10 * digitVal c1 + digitVal c2) then
      some (10 * digitVal c1 + digitVal c2, rest)
    else if isDigitC c1 && oneOk (digitVal c1) then some (digitVal c1, c2 :: rest)
    else none
  | [c1] => if isDigitC c1 && oneOk (digitVal c1) then some (digitVal c1, []) else none
  | [] => none

/-- Case-insensitive literal character match (TimeRE compiles its
pattern with re.IGNORECASE, so the literals T and Z also match t and
z). -/
def litEq (pat c : Char) : Bool :=
  lowerN pat.toNat == lowerN c.toNat

/-- Consume one literal character of the format string. -/
def parseLit (pat : Char) : List Char → Option (List Char)
  | c :: rest => if litEq pat c then some rest else none
  | [] => none

/-- Field recognition of
datetime.strptime(s, "%Y-%m-%dT%H:%M:%SZ") per _strptime.TimeRE:
%Y is four digits; %m is 1-12, %d is 1-31, %H is 0-23, %M is 0-59 and
%S is 0-61, each in one or two digits; the whole string must be
consumed (otherwise: unconverted data remains). -/
def strptimeFieldsYmdHMSZ (l : List Char) : Option (Nat × Nat × Nat × Nat × Nat × Nat) := do
  let (y, l) ← parse4D l
  let l ← parseLit '-' l
  let (mo, l) ← parse21 (fun v => decide (1 ≤ v) && decide (v ≤ 12)) (fun v => decide (1 ≤ v)) l
  let l ← parseLit '-' l
  let (d, l) ← parse21 (fun v => decide (1 ≤ v) && decide (v ≤ 31)) (fun v => decide (1 ≤ v)) l
  let l ← parseLit 'T' l
  let (h, l) ← parse21 (fun v => decide (v ≤ 23)) (fun _ => true) l
  let l ← parseLit ':' l
  let (mi, l) ← parse21 (fun v => decide (v ≤ 59)) (fun _ => true) l
  let l ← parseLit ':' l
  let (sec, l) ← parse21 (fun v => decide (v ≤ 61)) (fun _ => true) l
  let l ← parseLit 'Z' l
  if l.isEmpty then some (y, mo, d, h, mi, sec) else none

/-- Length of a month per the datetime constructor's validation,
including leap-year February. -/
def daysInMonth (y m : Nat) : Nat :=
  if m == 2 then (if (y % 4 == 0 && y % 100 != 0) || y % 400 == 0 then 29 else 28)
  else if m == 4 || m == 6 || m == 9 || m == 11 then 30
  else 31

/-- datetime.strptime(s, "%Y-%m-%dT%H:%M:%SZ"): regex recognition
followed by the datetime constructor's range validation (year at least
1, day within the month, second at most 59 - the leap seconds 60 and 61
pass the regex but are rejected by the constructor).  Both a failed
match and a constructor rejection raise ValueError.  The result is a
naive datetime (utc false). -/
def datetime_strptime (s : String) : Except PyErr Datetime :=
  match strptimeFieldsYmdHMSZ s.data with
  | none => .error .valueError
  | some (y, mo, d, h, mi, sec) =>
    if decide (1 ≤ y) && decide (d ≤ daysInMonth y mo) && decide (sec ≤ 59) then
      .ok ⟨y, mo, d, h, mi, sec, false⟩
    else .error .valueError

/-- datetime.strptime applied to the value of data.get("time"):
TypeError when the value is None (absent key) or not a string. -/
def pyStrptimeObj : Option J → Except PyErr Datetime
  | some (.str s) => datetime_strptime s
  | _ => .error .typeError

/-- Snapshot of tip-floor statistics in integer base units (lamports),
as declared by the BundlesTipsFloorResponse dataclass. -/
structure BundlesTipsFloorResponse where
  time : Datetime
  landed_tips_lamports_25th_percentile : Int
  landed_tips_lamports_50th_percentile : Int
  landed_tips_lamports_75th_percentile : Int
  landed_tips_lamports_95th_percentile : Int
  landed_tips_lamports_99th_percentile : Int
  ema_landed_tips_lamports_50th_percentile : Int
  deriving DecidableEq, Repr

/-- Unit conversion applied to each of the six percentile/EMA fields of
a tip-floor record: int(float(data.get(key)) * (10 ** 9)), the
expression repeated at searcher.py lines 47-52 with the six keys. -/
def fieldToLamports (data : J) (key : String) : Except PyErr Int := do
  let v ← pyDictGet data key
  let f ← pyFloatObj v
  let p ← pyMulInt f (10 ^ 9)
  pyInt p

/-- BundlesTipsFloorResponse.from_dict: parse the time field with
strptime, mark it UTC via replace(tzinfo=timezone.utc), then convert
the six percentile/EMA fields in the order they appear in the
constructor call. -/
def BundlesTipsFloorResponse.from_dict (data : J) : Except PyErr BundlesTipsFloorResponse := do
  let time_str ← pyDictGet data "time"
  let parsed_naive ← pyStrptimeObj time_str
  let parsed_time := { parsed_naive with utc := true }
  let f25 ← fieldToLamports data "landed_tips_25th_percentile"
  let f50 ← fieldToLamports data "landed_tips_50th_percentile"
  let f75 ← fieldToLamports data "landed_tips_75th_percentile"
  let f95 ← fieldToLamports data "landed_tips_95th_percentile"
  let f99 ← fieldToLamports data "landed_tips_99th_percentile"
  let ema ← fieldToLamports data "ema_landed_tips_50th_percentile"
  return ⟨parsed_time, f25, f50, f75, f95, f99, ema⟩

/-- Fixed statistics host (module-level constant JITO_TIPS_ENDPOINT). -/
def JITO_TIPS_ENDPOINT : String := "https://bundles.jito.wtf"

/-- Status of one submitted bundle, as declared by the BundleStatus
dataclass.  The fields hold whatever decoded values the upstream
response supplied: the Python dataclass performs no runtime coercion or
validation. -/
structure BundleStatus where
  bundle_id : J
  transactions : J
  slot : J
  confirmation_status : J
  err : J

/-- Context slot plus per-bundle statuses, as declared by the
BundleStatusesResponse dataclass. -/
structure BundleStatusesResponse where
  context_slot : J
  statuses : List BundleStatus

/-- The client: its only state is the base URL stored by the
constructor. -/
structure Searcher where
  block_engine_url : String

/-- Python str.rstrip applied with the single strip character /. -/
def rstripSlashL (l : List Char) : List Char :=
  (l.reverse.dropWhile fun c => c == '/').reverse

/-- Python str.lstrip applied with the single strip character /. -/
def lstripSlashL (l : List Char) : List Char :=
  l.dropWhile fun c => c == '/'

/-- Request URL built by Searcher._send_rpc_request at line 77:
the f-string joining the rstripped base URL and the lstripped endpoint
path with a single slash. -/
def rpcRequestUrl (self : Searcher) (endpoint : String) : String :=
  String.mk (rstripSlashL self.block_engine_url.data ++ '/' :: lstripSlashL endpoint.data)

/-- Request URL of Searcher.get_tip_floors at line 135: the f-string
prepending the fixed statistics host to the fixed path, ignoring the
client's configured base URL. -/
def tipFloorRequestUrl (_self : Searcher) : String :=
  JITO_TIPS_ENDPOINT ++ "/api/v1/bundles/tip_floor"

/-- Searcher._extract_result: return response["result"] when the
response contains a result key, else raise the diagnostic exception
interpolating the method name and the raw response. -/
def Searcher._extract_result (response : J) (method : String) : Except PyErr J := do
  let hasResult ← pyContainsResult response
  if hasResult then jGetItem response "result"
  else .error (.protocolError method response)

/-- Body of the list comprehension in Searcher.get_bundle_statuses:
build one BundleStatus from one element of result["value"], reading its
five fields by subscription in the order they appear in the constructor
call. -/
def statusFrom (status : J) : Except PyErr BundleStatus := do
  let bundle_id ← jGetItem status "bundle_id"
  let transactions ← jGetItem status "transactions"
  let slot ← jGetItem status "slot"
  let confirmation_status ← jGetItem status "confirmation_status"
  let err ← jGetItem status "err"
  return ⟨bundle_id, transactions, slot, confirmation_status, err⟩

/-- The list comprehension itself: elements are processed left to
right, the first exception propagates. -/
def statusesLoop : List J → Except PyErr (List BundleStatus)
  | [] => .ok []
  | x :: rest => do
    let s ← statusFrom x
    let r ← statusesLoop rest
    return s :: r

/-- Searcher.get_bundle_statuses given the decoded POST response:
extract the result, read result["context"]["slot"] as the context slot,
and map each element of result["value"] to a BundleStatus.  The
bundle_ids argument only feeds the unmodelled request payload. -/
def Searcher.get_bundle_statuses (self : Searcher) (bundle_ids : List String) (response : J) :
    Except PyErr BundleStatusesResponse := do
  let _ := self
  let _ := bundle_ids
  let result ← Searcher._extract_result response "getBundleStatuses"
  let context ← jGetItem result "context"
  let context_slot ← jGetItem context "slot"
  let value ← jGetItem result "value"
  let items ← pyIter value
  let statuses ← statusesLoop items
  return ⟨context_slot, statuses⟩

/-- Searcher.get_tip_accounts given the decoded POST response: the
extracted result, unvalidated. -/
def Searcher.get_tip_accounts (self : Searcher) (response : J) : Except PyErr J :=
  let _ := self
  Searcher._extract_result response "getTipAccounts"

/-- Searcher.send_bundle given the decoded POST response: the extracted
result (the bundle id), unvalidated.  The transactions argument only
feeds the unmodelled request payload. -/
def Searcher.send_bundle (self : Searcher) (transactions : List String) (response : J) :
    Except PyErr J :=
  let _ := self
  let _ := transactions
  Searcher._extract_result response "sendBundle"

/-- Searcher.send_transaction given the decoded POST response: the
extracted result, unvalidated. -/
def Searcher.send_transaction (self : Searcher) (transaction : String) (response : J) :
    Except PyErr J :=
  let _ := self
  let _ := transaction
  Searcher._extract_result response "sendTransaction"

/-- Searcher.get_tip_floors given the decoded GET body: raise the
no-data exception on a falsy body (in particular the empty list), else
parse the first record with BundlesTipsFloorResponse.from_dict. -/
def Searcher.get_tip_floors (self : Searcher) (body : J) :
    Except PyErr BundlesTipsFloorResponse := do
  let _ := self
  if jFalsy body then .error .noDataError
  else do
    let first ← pyIndex0 body
    BundlesTipsFloorResponse.from_dict first

/-- State-passing form of get_bundle_statuses: the translated method
body contains no assignment to self, so it returns self unchanged. -/
def Searcher.get_bundle_statusesS (self : Searcher) (bundle_ids : List String) (response : J) :
    Except PyErr BundleStatusesResponse × Searcher :=
  (self.get_bundle_statuses bundle_ids response, self)

/-- State-passing form of get_tip_accounts. -/
def Searcher.get_tip_accountsS (self : Searcher) (response : J) :
    Except PyErr J × Searcher :=
  (self.get_tip_accounts response, self)

/-- State-passing form of send_bundle. -/
def Searcher.send_bundleS (self : Searcher) (transactions : List String) (response : J) :
    Except PyErr J × Searcher :=
  (self.send_bundle transactions response, self)

/-- State-passing form of send_transaction. -/
def Searcher.send_transactionS (self : Searcher) (transaction : String) (response : J) :
    Except PyErr J × Searcher :=
  (self.send_transaction transaction response, self)

/-- State-passing form of get_tip_floors. -/
def Searcher.get_tip_floorsS (self : Searcher) (body : J) :
    Except PyErr BundlesTipsFloorResponse × Searcher :=
  (self.get_tip_floors body, self)

/-- Whether a character list ends in a slash. -/
def endsWithSlash (l : List Char) : Bool :=
  l.getLast? == some '/'

/-- Whether a character list starts with a slash. -/
def startsWithSlash (l : List Char) : Bool :=
  l.head? == some '/'

/-- Characters that can occur in a string accepted by
datetime_strptime: digits and the (case-insensitive) format literals.
A dot or a plus sign is not among them, so no accepted time string can
carry fractional seconds or a numeric UTC offset. -/
def strptimeAllowedChar (c : Char) : Bool :=
  isDigitC c || litEq '-' c || litEq ':' c || litEq 'T' c || litEq 'Z' c

/-- Transcription of the specification's words, for comparison with the
code: a time string matching the fixed pattern YYYY-MM-DDTHH:MM:SSZ
exactly, i.e. exactly twenty characters with digits at the
year/month/day/hour/minute/second positions and the literal separators
in between. -/
def specTimePattern (s : String) : Bool :=
  match s.data with
  | [y1, y2, y3, y4, '-', m1, m2, '-', d1, d2, 'T', h1, h2, ':', mi1, mi2, ':', s1, s2, 'Z'] =>
    isDigitC y1 && isDigitC y2 && isDigitC y3 && isDigitC y4 &&
    isDigitC m1 && isDigitC m2 && isDigitC d1 && isDigitC d2 &&
    isDigitC h1 && isDigitC h2 && isDigitC mi1 && isDigitC mi2 &&
    isDigitC s1 && isDigitC s2
  | _ => false

/-- The tip-floor record documented in the specification's testable
properties (section 8). -/
def c1Record : J := .dict
  [("time", .str "2025-03-12T15:38:27Z"),
   ("landed_tips_25th_percentile", .str "0.000001"),
   ("landed_tips_50th_percentile", .str "0.000002"),
   ("landed_tips_75th_percentile", .str "0.000003"),
   ("landed_tips_95th_percentile", .str "0.000004"),
   ("landed_tips_99th_percentile", .str "0.000005"),
   ("ema_landed_tips_50th_percentile", .str "0.000002")]

/-- Value from_dict computes for c1Record (and for c6Record, whose
unpadded month denotes the same date). -/
def c1Expected : BundlesTipsFloorResponse :=
  ⟨⟨2025, 3, 12, 15, 38, 27, true⟩, 1000, 2000, 3000, 4000, 5000, 2000⟩

/-- The same record with an unpadded month in its time field: it does
not match the fixed twenty-character pattern, yet strptime accepts
it. -/
def c6Record : J := .dict
  [("time", .str "2025-3-12T15:38:27Z"),
   ("landed_tips_25th_percentile", .str "0.000001"),
   ("landed_tips_50th_percentile", .str "0.000002"),
   ("landed_tips_75th_percentile", .str "0.000003"),
   ("landed_tips_95th_percentile", .str "0.000004"),
   ("landed_tips_99th_percentile", .str "0.000005"),
   ("ema_landed_tips_50th_percentile", .str "0.000002")]

/-- The mock getBundleStatuses response documented in the
specification's testable properties (section 8). -/
def c4MockResponse : J := .dict
  [("result", .dict
    [("context", .dict [("slot", .int 100)]),
     ("value", .list
       [.dict [("bundle_id", .str "id1"),
               ("transactions", .list [.str "t1"]),
               ("slot", .int 99),
               ("confirmation_status", .str "confirmed"),
               ("err", .dict [])]])])]

/-- Value get_bundle_statuses computes for c4MockResponse. -/
def c4Expected : BundleStatusesResponse :=
  ⟨.int 100, [⟨.str "id1", .list [.str "t1"], .int 99, .str "confirmed", .dict []⟩]⟩

/-- The error response documented in the specification's testable
properties (section 8): it has no result key. -/
def c2ErrResponse : J :=
  .dict [("error", .dict [("code", .int (-1)), ("message", .str "bad")])]

theorem from_dict_ok_inv (d : J) (r : BundlesTipsFloorResponse)
    (h : BundlesTipsFloorResponse.from_dict d = .ok r) :
    (∃ t dt, pyDictGet d "time" = .ok t ∧ pyStrptimeObj t = .ok dt ∧
      r.time = { dt with utc := true }) ∧
    fieldToLamports d "landed_tips_25th_percentile" = .ok r.landed_tips_lamports_25th_percentile ∧
    fieldToLamports d "landed_tips_50th_percentile" = .ok r.landed_tips_lamports_50th_percentile ∧
    fieldToLamports d "landed_tips_75th_percentile" = .ok r.landed_tips_lamports_75th_percentile ∧
    fieldToLamports d "landed_tips_95th_percentile" = .ok r.landed_tips_lamports_95th_percentile ∧
    fieldToLamports d "landed_tips_99th_percentile" = .ok r.landed_tips_lamports_99th_percentile ∧
    fieldToLamports d "ema_landed_tips_50th_percentile" = .ok r.ema_landed_tips_lamports_50th_percentile := by
  unfold BundlesTipsFloorResponse.from_dict at h
  cases e1 : pyDictGet d "time" <;> rw [e1] at h <;> simp [bind, Except.bind] at h
  cases e2 : pyStrptimeObj _ <;> rw [e2] at h <;> simp at h
  cases e3 : fieldToLamports d "landed_tips_25th_percentile" <;> rw [e3] at h <;> simp at h
  cases e4 : fieldToLamports d "landed_tips_50th_percentile" <;> rw [e4] at h <;> simp at h
  cases e5 : fieldToLamports d "landed_tips_75th_percentile" <;> rw [e5] at h <;> simp at h
  cases e6 : fieldToLamports d "landed_tips_95th_percentile" <;> rw [e6] at h <;> simp at h
  cases e7 : fieldToLamports d "landed_tips_99th_percentile" <;> rw [e7] at h <;> simp at h
  cases e8 : fieldToLamports d "ema_landed_tips_50th_percentile" <;> rw [e8] at h <;> simp at h
  simp only [pure, Except.pure, Except.ok.injEq] at h
  subst h
  exact ⟨⟨_, _, rfl, e2, rfl⟩, rfl, rfl, rfl, rfl, rfl, rfl⟩

theorem pyStrptimeObj_ok_str (t : Option J) (dt : Datetime)
    (h : pyStrptimeObj t = .ok dt) :
    ∃ s, t = some (.str s) ∧ datetime_strptime s = .ok dt := by
  match t with
  | none => simp [pyStrptimeObj] at h
  | some x =>
    cases x <;> simp [pyStrptimeObj] at h
    exact ⟨_, rfl, h⟩

theorem fieldToLamports_ok_some (kvs : List (String × J)) (k : String) (f : Int)
    (h : fieldToLamports (.dict kvs) k = .ok f) :
    (jLookup kvs k).isSome = true := by
  unfold fieldToLamports at h
  cases e : jLookup kvs k with
  | some v => rfl
  | none => simp [pyDictGet, e, bind, Except.bind, pyFloatObj] at h

/-- Claim C1: for every tip-floor record accepted by from_dict, each of
the six percentile/EMA fields is obtained by the same conversion
int(float(value) * 10 ^ 9), i.e. an intermediate binary64 conversion,
multiplication by the fixed exponent 10 ^ 9 and truncation toward zero;
on the documented record the 25th-percentile field equals 1000. -/
theorem c1_unit_conversion :
    (∀ (d : J) (k : String),
        fieldToLamports d k =
          pyDictGet d k >>= fun v => pyFloatObj v >>= fun f =>
            pyMulInt f (10 ^ 9) >>= fun p => pyInt p) ∧
    (∀ (d : J) (r : BundlesTipsFloorResponse),
        BundlesTipsFloorResponse.from_dict d = .ok r →
        fieldToLamports d "landed_tips_25th_percentile" = .ok r.landed_tips_lamports_25th_percentile ∧
        fieldToLamports d "landed_tips_50th_percentile" = .ok r.landed_tips_lamports_50th_percentile ∧
        fieldToLamports d "landed_tips_75th_percentile" = .ok r.landed_tips_lamports_75th_percentile ∧
        fieldToLamports d "landed_tips_95th_percentile" = .ok r.landed_tips_lamports_95th_percentile ∧
        fieldToLamports d "landed_tips_99th_percentile" = .ok r.landed_tips_lamports_99th_percentile ∧
        fieldToLamports d "ema_landed_tips_50th_percentile" = .ok r.ema_landed_tips_lamports_50th_percentile) ∧
    BundlesTipsFloorResponse.from_dict c1Record = .ok c1Expected ∧
    c1Expected.landed_tips_lamports_25th_percentile = 1000 := by
  refine ⟨fun d k => rfl, fun d r h => (from_dict_ok_inv d r h).2, ?_, rfl⟩
  rfl

/-- Witness for C1: the conversion of the documented record's
25th-percentile value 0.000001 yields 1000 base units. -/
theorem c1_unit_conversion_witness :
    fieldToLamports c1Record "landed_tips_25th_percentile" = .ok 1000 :=
  (c1_unit_conversion.2.1 c1Record c1Expected (by rfl)).1

theorem isPrefixC_self_append (p t : List Char) : isPrefixC p (p ++ t) = true := by
  induction p with
  | nil => rfl
  | cons a as ih => simp [isPrefixC, ih]

theorem isInfixC_nil_left (l : List Char) : isInfixC [] l = true := by
  induction l with
  | nil => rfl
  | cons c rest ih => simp [isInfixC, ih, isPrefixC]

theorem isInfixC_mid (p pre suf : List Char) : isInfixC p (pre ++ (p ++ suf)) = true := by
  induction pre with
  | nil =>
    cases p with
    | nil => exact isInfixC_nil_left _
    | cons a as =>
      have h1 : isPrefixC (a :: as) ((a :: as) ++ suf) = true := isPrefixC_self_append (a :: as) suf
      show (isPrefixC (a :: as) ((a :: as) ++ suf) || isInfixC (a :: as) (as ++ suf)) = true
      rw [h1, Bool.true_or]
  | cons c cs ih => simp [isInfixC, ih]

theorem extract_result_found (kvs : List (String × J)) (method : String) (v : J)
    (h : jLookup kvs "result" = some v) :
    Searcher._extract_result (.dict kvs) method = .ok v := by
  simp [Searcher._extract_result, pyContainsResult, jGetItem, h, bind, Except.bind]

theorem extract_result_missing (kvs : List (String × J)) (method : String)
    (h : jLookup kvs "result" = none) :
    Searcher._extract_result (.dict kvs) method =
      .error (.protocolError method (.dict kvs)) := by
  simp [Searcher._extract_result, pyContainsResult, h, bind, Except.bind]

/-- Claim C2: a response with a result key has that value returned
unchanged; a response without one fails with the protocol-error
exception whose message embeds the method name and the rendered raw
response, and that failure propagates unchanged through all four
RPC-backed operations. -/
theorem c2_result_extraction :
    (∀ (kvs : List (String × J)) (method : String) (v : J),
        jLookup kvs "result" = some v →
        Searcher._extract_result (.dict kvs) method = .ok v) ∧
    (∀ (kvs : List (String × J)) (method : String),
        jLookup kvs "result" = none →
        Searcher._extract_result (.dict kvs) method =
          .error (.protocolError method (.dict kvs)) ∧
        isInfixC method.data (errMessage (.protocolError method (.dict kvs))).data = true ∧
        isInfixC (reprJ (.dict kvs)).data (errMessage (.protocolError method (.dict kvs))).data = true) ∧
    (∀ (c : Searcher) (kvs : List (String × J)) (ids txs : List String) (tx : String),
        jLookup kvs "result" = none →
        c.get_bundle_statuses ids (.dict kvs) = .error (.protocolError "getBundleStatuses" (.dict kvs)) ∧
        c.get_tip_accounts (.dict kvs) = .error (.protocolError "getTipAccounts" (.dict kvs)) ∧
        c.send_bundle txs (.dict kvs) = .error (.protocolError "sendBundle" (.dict kvs)) ∧
        c.send_transaction tx (.dict kvs) = .error (.protocolError "sendTransaction" (.dict kvs))) := by
  refine ⟨extract_result_found, fun kvs method h => ⟨extract_result_missing kvs method h, ?_, ?_⟩,
    fun c kvs ids txs tx h => ⟨?_, ?_, ?_, ?_⟩⟩
  · have hd : (errMessage (.protocolError method (.dict kvs))).data =
        "Error in ".data ++ (method.data ++ (" response: ".data ++ (reprJ (.dict kvs)).data)) := by
      simp [errMessage, String.data_append, List.append_assoc]
    rw [hd]
    exact isInfixC_mid _ _ _
  · have hd : (errMessage (.protocolError method (.dict kvs))).data =
        ("Error in ".data ++ method.data ++ " response: ".data) ++ ((reprJ (.dict kvs)).data ++ []) := by
      simp [errMessage, String.data_append, List.append_assoc]
    rw [hd]
    exact isInfixC_mid _ _ _
  · simp [Searcher.get_bundle_statuses, Searcher._extract_result, pyContainsResult, h, bind, Except.bind]
  · simp [Searcher.get_tip_accounts, Searcher._extract_result, pyContainsResult, h, bind, Except.bind]
  · simp [Searcher.send_bundle, Searcher._extract_result, pyContainsResult, h, bind, Except.bind]
  · simp [Searcher.send_transaction, Searcher._extract_result, pyContainsResult, h, bind, Except.bind]

/-- Witness for C2 at the documented error response. -/
theorem c2_result_extraction_witness :
    Searcher.get_tip_accounts ⟨"http://engine"⟩ c2ErrResponse =
      .error (.protocolError "getTipAccounts" c2ErrResponse) :=
  (c2_result_extraction.2.2 ⟨"http://engine"⟩
    [("error", .dict [("code", .int (-1)), ("message", .str "bad")])] [] [] "" (by rfl)).2.1

theorem startsWithSlash_lstrip (l : List Char) :
    startsWithSlash (lstripSlashL l) = false := by
  unfold lstripSlashL
  induction l with
  | nil => rfl
  | cons c rest ih =>
    by_cases hc : c = '/'
    · subst hc
      simpa [List.dropWhile_cons] using ih
    · have hb : (c == '/') = false := by simp [hc]
      simp [List.dropWhile_cons, hb, startsWithSlash]

theorem endsWithSlash_rstrip (l : List Char) :
    endsWithSlash (rstripSlashL l) = false := by
  unfold rstripSlashL
  have h := startsWithSlash_lstrip l.reverse
  unfold lstripSlashL at h
  simp [endsWithSlash, startsWithSlash, List.getLast?_reverse] at h ⊢
  exact h

theorem rstrip_append_slash (l : List Char) :
    rstripSlashL (l ++ [ '/' ]) = rstripSlashL l := by
  simp [rstripSlashL, List.reverse_append, List.dropWhile_cons]

theorem lstrip_cons_slash (l : List Char) :
    lstripSlashL ('/' :: l) = lstripSlashL l := by
  simp [lstripSlashL, List.dropWhile_cons]

/-- Claim C3: the request URL is the rstripped base joined to the
lstripped endpoint by exactly one slash; the joined parts never end or
begin with a slash themselves, and adding a trailing slash to the base
or a leading slash to the endpoint does not change the URL. -/
theorem c3_single_separating_slash :
    ∀ (base endpoint : String),
      (rpcRequestUrl ⟨base⟩ endpoint).data =
        rstripSlashL base.data ++ '/' :: lstripSlashL endpoint.data ∧
      endsWithSlash (rstripSlashL base.data) = false ∧
      startsWithSlash (lstripSlashL endpoint.data) = false ∧
      rpcRequestUrl ⟨String.mk (base.data ++ [ '/' ])⟩ endpoint = rpcRequestUrl ⟨base⟩ endpoint ∧
      rpcRequestUrl ⟨base⟩ (String.mk ('/' :: endpoint.data)) = rpcRequestUrl ⟨base⟩ endpoint := by
  intro base endpoint
  refine ⟨rfl, endsWithSlash_rstrip _, startsWithSlash_lstrip _, ?_, ?_⟩
  · unfold rpcRequestUrl
    exact congrArg String.mk (by rw [show (Searcher.mk (String.mk (base.data ++ [ '/' ]))).block_engine_url.data = base.data ++ [ '/' ] from rfl, rstrip_append_slash])
  · unfold rpcRequestUrl
    exact congrArg String.mk (by rw [show (String.mk ('/' :: endpoint.data)).data = '/' :: endpoint.data from rfl, lstrip_cons_slash])

/-- Claim C4: get_bundle_statuses reads result.context.slot as the
context slot and maps each element of result.value, in order, to a
BundleStatus copying its five fields; on the documented mock response
it returns context slot 100 and exactly one matching BundleStatus. -/
theorem c4_bundle_statuses_mapping :
    (∀ (c : Searcher) (ids : List String) (kvs rkvs ckvs : List (String × J))
        (slotJ : J) (items : List J) (sts : List BundleStatus),
        jLookup kvs "result" = some (.dict rkvs) →
        jLookup rkvs "context" = some (.dict ckvs) →
        jLookup ckvs "slot" = some slotJ →
        jLookup rkvs "value" = some (.list items) →
        statusesLoop items = .ok sts →
        c.get_bundle_statuses ids (.dict kvs) = .ok ⟨slotJ, sts⟩) ∧
    (∀ (skvs : List (String × J)) (b t sl cs er : J),
        jLookup skvs "bundle_id" = some b →
        jLookup skvs "transactions" = some t →
        jLookup skvs "slot" = some sl →
        jLookup skvs "confirmation_status" = some cs →
        jLookup skvs "err" = some er →
        statusFrom (.dict skvs) = .ok ⟨b, t, sl, cs, er⟩) ∧
    (∀ (x : J) (rest : List J) (s : BundleStatus) (r : List BundleStatus),
        statusFrom x = .ok s → statusesLoop rest = .ok r →
        statusesLoop (x :: rest) = .ok (s :: r)) := by
  refine ⟨fun c ids kvs rkvs ckvs slotJ items sts h1 h2 h3 h4 h5 => ?_,
    fun skvs b t sl cs er h1 h2 h3 h4 h5 => ?_,
    fun x rest s r h1 h2 => ?_⟩
  · simp [Searcher.get_bundle_statuses, Searcher._extract_result, pyContainsResult, jGetItem,
      pyIter, h1, h2, h3, h4, h5, bind, Except.bind, pure, Except.pure]
  · simp [statusFrom, jGetItem, h1, h2, h3, h4, h5, bind, Except.bind, pure, Except.pure]
  · simp [statusesLoop, h1, h2, bind, Except.bind, pure, Except.pure]

/-- Witness for C4 at the documented mock response. -/
theorem c4_bundle_statuses_mapping_witness :
    Searcher.get_bundle_statuses ⟨"http://engine"⟩ ["id1", "id2"] c4MockResponse =
      .ok c4Expected :=
  c4_bundle_statuses_mapping.1 ⟨"http://engine"⟩ ["id1", "id2"] _ _ _ _ _ _
    (by rfl) (by rfl) (by rfl) (by rfl) (by rfl)

/-- Claim C5: an empty tip-floor response sequence makes get_tip_floors
fail with the no-data error, producing no statistics value. -/
theorem c5_empty_tip_floor :
    ∀ (c : Searcher), c.get_tip_floors (.list []) = .error .noDataError :=
  fun _ => rfl

/-- Claim C7: get_tip_floors addresses the fixed statistics host
whatever base URL the client was built with, and its result is computed
from the first record of the body alone, so clients with different base
URLs given the same body return the same result. -/
theorem c7_fixed_host_first_record :
    (∀ (c : Searcher),
        tipFloorRequestUrl c = "https://bundles.jito.wtf/api/v1/bundles/tip_floor") ∧
    (∀ (c1 c2 : Searcher) (body : J),
        c1.get_tip_floors body = c2.get_tip_floors body) ∧
    (∀ (c : Searcher) (x : J) (rest : List J),
        c.get_tip_floors (.list (x :: rest)) = BundlesTipsFloorResponse.from_dict x) :=
  ⟨fun _ => rfl, fun _ _ _ => rfl, fun _ _ _ => rfl⟩

/-- Claim C8: every operation leaves the client state (the base URL set
at construction) unchanged, and repeating get_tip_accounts against the
same response yields structurally equal results. -/
theorem c8_immutable_state :
    (∀ (c : Searcher) (resp : J) (ids txs : List String) (tx : String),
        (c.get_bundle_statusesS ids resp).2 = c ∧
        (c.get_tip_accountsS resp).2 = c ∧
        (c.send_bundleS txs resp).2 = c ∧
        (c.send_transactionS tx resp).2 = c ∧
        (c.get_tip_floorsS resp).2 = c) ∧
    (∀ (c : Searcher) (resp : J),
        (((c.get_tip_accountsS resp).2).get_tip_accountsS resp).1 =
          (c.get_tip_accountsS resp).1) :=
  ⟨fun _ _ _ _ _ => ⟨rfl, rfl, rfl, rfl, rfl⟩, fun _ _ => rfl⟩

/-- Claim C9: the extractor checks key membership, not truthiness, so a
null or otherwise falsy result value is returned as a success, in
particular by send_bundle. -/
theorem c9_falsy_result_is_success :
    (∀ (kvs : List (String × J)) (method : String) (v : J),
        jLookup kvs "result" = some v →
        Searcher._extract_result (.dict kvs) method = .ok v) ∧
    (∀ (c : Searcher) (txs : List String) (kvs : List (String × J)),
        jLookup kvs "result" = some .null →
        c.send_bundle txs (.dict kvs) = .ok .null) ∧
    Searcher._extract_result (.dict [("result", .null)]) "sendBundle" = .ok .null ∧
    Searcher._extract_result (.dict [("result", .list [])]) "getTipAccounts" = .ok (.list []) ∧
    Searcher._extract_result (.dict [("result", .bool false)]) "sendTransaction" = .ok (.bool false) := by
  refine ⟨extract_result_found, fun c txs kvs h => ?_, rfl, rfl, rfl⟩
  simpa [Searcher.send_bundle] using extract_result_found kvs "sendBundle" _ h

/-- Witness for C9: send_bundle returns the null result as a success. -/
theorem c9_falsy_result_is_success_witness :
    Searcher.send_bundle ⟨"http://engine"⟩ ["tx1"] (.dict [("result", .null)]) = .ok .null :=
  c9_falsy_result_is_success.2.1 ⟨"http://engine"⟩ ["tx1"] [("result", .null)] rfl

/-- Claim C10: from_dict only returns a value when all seven fields are
present; a missing time key or a missing percentile key surfaces as the
untyped TypeError of the runtime primitive, not as the ValueError that
plays the role of the documented ParseError. -/
theorem c10_missing_fields :
    (∀ (kvs : List (String × J)),
        jLookup kvs "time" = none →
        BundlesTipsFloorResponse.from_dict (.dict kvs) = .error .typeError) ∧
    (∀ (kvs : List (String × J)) (t : J) (dt : Datetime),
        jLookup kvs "time" = some t →
        pyStrptimeObj (some t) = .ok dt →
        jLookup kvs "landed_tips_25th_percentile" = none →
        BundlesTipsFloorResponse.from_dict (.dict kvs) = .error .typeError) ∧
    (∀ (kvs : List (String × J)) (r : BundlesTipsFloorResponse),
        BundlesTipsFloorResponse.from_dict (.dict kvs) = .ok r →
        (jLookup kvs "time").isSome = true ∧
        (jLookup kvs "landed_tips_25th_percentile").isSome = true ∧
        (jLookup kvs "landed_tips_50th_percentile").isSome = true ∧
        (jLookup kvs "landed_tips_75th_percentile").isSome = true ∧
        (jLookup kvs "landed_tips_95th_percentile").isSome = true ∧
        (jLookup kvs "landed_tips_99th_percentile").isSome = true ∧
        (jLookup kvs "ema_landed_tips_50th_percentile").isSome = true) := by
  refine ⟨fun kvs h => ?_, fun kvs t dt h1 h2 h3 => ?_, fun kvs r h => ?_⟩
  · simp [BundlesTipsFloorResponse.from_dict, pyDictGet, h, pyStrptimeObj, bind, Except.bind]
  · simp [BundlesTipsFloorResponse.from_dict, pyDictGet, h1, h2, h3, fieldToLamports,
      pyFloatObj, bind, Except.bind]
  · obtain ⟨⟨t, dt, ht, hdt, _⟩, h25, h50, h75, h95, h99, hema⟩ := from_dict_ok_inv _ _ h
    obtain ⟨s, rfl, _⟩ := pyStrptimeObj_ok_str _ _ hdt
    have hjt : jLookup kvs "time" = some (.str s) := by
      simpa [pyDictGet] using ht
    exact ⟨by simp [hjt], fieldToLamports_ok_some _ _ _ h25,
      fieldToLamports_ok_some _ _ _ h50, fieldToLamports_ok_some _ _ _ h75,
      fieldToLamports_ok_some _ _ _ h95, fieldToLamports_ok_some _ _ _ h99,
      fieldToLamports_ok_some _ _ _ hema⟩

theorem parse4D_split (l : List Char) (y : Nat) (rest : List Char)
    (h : parse4D l = some (y, rest)) :
    ∃ ds, l = ds ++ rest ∧ ds.all isDigitC = true := by
  match l with
  | [] => simp [parse4D] at h
  | [a] => simp [parse4D] at h
  | [a, b] => simp [parse4D] at h
  | [a, b, c] => simp [parse4D] at h
  | a :: b :: c :: d :: rest2 =>
    cases hc : (isDigitC a && isDigitC b && isDigitC c && isDigitC d) <;>
      simp [parse4D, hc] at h
    refine ⟨[a, b, c, d], by simp [h.2], ?_⟩
    simp only [Bool.and_eq_true] at hc
    simp [List.all_cons, hc.1.1.1, hc.1.1.2, hc.1.2, hc.2]

theorem parse21_split (twoOk oneOk : Nat → Bool) (l : List Char) (v : Nat) (rest : List Char)
    (h : parse21 twoOk oneOk l = some (v, rest)) :
    ∃ ds, l = ds ++ rest ∧ ds.all isDigitC = true := by
  match l with
  | [] => simp [parse21] at h
  | [c1] =>
    cases hc : (isDigitC c1 && oneOk (digitVal c1)) <;> simp [parse21, hc] at h
    refine ⟨[c1], by simp [h.2], ?_⟩
    simp only [Bool.and_eq_true] at hc
    simp [List.all_cons, hc.1]
  | c1 :: c2 :: rest2 =>
    cases hc2 : (isDigitC c1 && isDigitC c2 && twoOk (10 * digitVal c1 + digitVal c2)) with
    | true =>
      simp [parse21, hc2] at h
      refine ⟨[c1, c2], by simp [h.2], ?_⟩
      simp only [Bool.and_eq_true] at hc2
      simp [List.all_cons, hc2.1.1, hc2.1.2]
    | false =>
      cases hc1 : (isDigitC c1 && oneOk (digitVal c1)) <;> simp [parse21, hc2, hc1] at h
      refine ⟨[c1], by simp [h.2], ?_⟩
      simp only [Bool.and_eq_true] at hc1
      simp [List.all_cons, hc1.1]

theorem parseLit_split (pat : Char) (l rest : List Char)
    (h : parseLit pat l = some rest) :
    ∃ c, l = c :: rest ∧ litEq pat c = true := by
  match l with
  | [] => simp [parseLit] at h
  | c :: rest2 =>
    cases hc : litEq pat c <;> simp [parseLit, hc] at h
    exact ⟨c, by rw [h], hc⟩

theorem all_allowed_of_digits (ds : List Char) (h : ds.all isDigitC = true) :
    ds.all strptimeAllowedChar = true := by
  induction ds with
  | nil => rfl
  | cons c cs ih =>
    simp only [List.all_cons, Bool.and_eq_true] at h ⊢
    exact ⟨by simp [strptimeAllowedChar, h.1], ih h.2⟩

theorem obind_some_inv {α β : Type} (o : Option α) (f : α → Option β) (b : β)
    (h : o >>= f = some b) : ∃ a, o = some a ∧ f a = some b := by
  cases o with
  | none => simp at h
  | some a => exact ⟨a, rfl, by simpa using h⟩

theorem strptimeFields_chars (l : List Char) (tup : Nat × Nat × Nat × Nat × Nat × Nat)
    (h : strptimeFieldsYmdHMSZ l = some tup) :
    l.all strptimeAllowedChar = true := by
  unfold strptimeFieldsYmdHMSZ at h
  obtain ⟨⟨y, l1⟩, e1, h⟩ := obind_some_inv _ _ _ h
  obtain ⟨l2, e2, h⟩ := obind_some_inv _ _ _ h
  obtain ⟨⟨mo, l3⟩, e3, h⟩ := obind_some_inv _ _ _ h
  obtain ⟨l4, e4, h⟩ := obind_some_inv _ _ _ h
  obtain ⟨⟨dd, l5⟩, e5, h⟩ := obind_some_inv _ _ _ h
  obtain ⟨l6, e6, h⟩ := obind_some_inv _ _ _ h
  obtain ⟨⟨hh, l7⟩, e7, h⟩ := obind_some_inv _ _ _ h
  obtain ⟨l8, e8, h⟩ := obind_some_inv _ _ _ h
  obtain ⟨⟨mi, l9⟩, e9, h⟩ := obind_some_inv _ _ _ h
  obtain ⟨l10, e10, h⟩ := obind_some_inv _ _ _ h
  obtain ⟨⟨sec, l11⟩, e11, h⟩ := obind_some_inv _ _ _ h
  obtain ⟨l12, e12, h⟩ := obind_some_inv _ _ _ h
  cases l12 with
  | cons c cs => simp at h
  | nil =>
  obtain ⟨ds1, rfl, hd1⟩ := parse4D_split _ _ _ e1
  obtain ⟨c1, rfl, hc1⟩ := parseLit_split _ _ _ e2
  obtain ⟨ds2, rfl, hd2⟩ := parse21_split _ _ _ _ _ e3
  obtain ⟨c2, rfl, hc2⟩ := parseLit_split _ _ _ e4
  obtain ⟨ds3, rfl, hd3⟩ := parse21_split _ _ _ _ _ e5
  obtain ⟨c3, rfl, hc3⟩ := parseLit_split _ _ _ e6
  obtain ⟨ds4, rfl, hd4⟩ := parse21_split _ _ _ _ _ e7
  obtain ⟨c4, rfl, hc4⟩ := parseLit_split _ _ _ e8
  obtain ⟨ds5, rfl, hd5⟩ := parse21_split _ _ _ _ _ e9
  obtain ⟨c5, rfl, hc5⟩ := parseLit_split _ _ _ e10
  obtain ⟨ds6, rfl, hd6⟩ := parse21_split _ _ _ _ _ e11
  obtain ⟨c6, rfl, hc6⟩ := parseLit_split _ _ _ e12
  simp only [List.all_append, List.all_cons, List.all_nil, Bool.and_eq_true, Bool.and_true]
  and_intros <;> first
    | (apply all_allowed_of_digits; assumption)
    | simp [strptimeAllowedChar, *]

/-- Witness for C10: the empty record and the record with only a valid
time field both fail with the untyped TypeError. -/
theorem c10_missing_fields_witness :
    BundlesTipsFloorResponse.from_dict (.dict []) = .error .typeError ∧
    BundlesTipsFloorResponse.from_dict (.dict [("time", .str "2025-03-12T15:38:27Z")]) =
      .error .typeError :=
  ⟨c10_missing_fields.1 [] rfl,
   c10_missing_fields.2.1 [("time", .str "2025-03-12T15:38:27Z")]
     (.str "2025-03-12T15:38:27Z") ⟨2025, 3, 12, 15, 38, 27, false⟩ rfl (by rfl) rfl⟩

/-- Counterexample to C6 as stated: the time string with an unpadded
month does not match the exact YYYY-MM-DDTHH:MM:SSZ pattern, yet
strptime accepts it and the whole record parses. -/
theorem c6_exact_pattern_counterexample :
    specTimePattern "2025-3-12T15:38:27Z" = false ∧
    datetime_strptime "2025-3-12T15:38:27Z" = .ok ⟨2025, 3, 12, 15, 38, 27, false⟩ ∧
    BundlesTipsFloorResponse.from_dict c6Record = .ok c1Expected := by
  exact ⟨rfl, rfl, rfl⟩

/-- Claim C6 (amended): the time field is parsed with the strptime
format of the code, which demands a four-digit year but also accepts
unpadded month/day/hour/minute/second fields and lower-case t/z; the
result is interpreted as UTC; every accepted string consists solely of
digits and the format's literal characters, so any value carrying
fractional seconds or a numeric UTC offset (both need a dot or plus
sign) fails with the ValueError standing for the documented
ParseError. -/
theorem c6_time_format_amended :
    (∀ (s : String) (dt : Datetime),
        datetime_strptime s = .ok dt →
        s.data.all strptimeAllowedChar = true ∧ dt.utc = false) ∧
    (∀ (d : J) (r : BundlesTipsFloorResponse),
        BundlesTipsFloorResponse.from_dict d = .ok r → r.time.utc = true) ∧
    strptimeAllowedChar '.' = false ∧
    strptimeAllowedChar '+' = false ∧
    datetime_strptime "2025-03-12T15:38:27Z" = .ok ⟨2025, 3, 12, 15, 38, 27, false⟩ ∧
    datetime_strptime "2025-03-12t15:38:27z" = .ok ⟨2025, 3, 12, 15, 38, 27, false⟩ ∧
    datetime_strptime "2025-03-12T15:38:27.5Z" = .error .valueError ∧
    datetime_strptime "2025-03-12T15:38:27+00:00" = .error .valueError := by
  refine ⟨fun s dt h => ?_, fun d r h => ?_, rfl, rfl, rfl, rfl, rfl, rfl⟩
  · unfold datetime_strptime at h
    cases e : strptimeFieldsYmdHMSZ s.data with
    | none => rw [e] at h; simp at h
    | some tup =>
      rw [e] at h
      refine ⟨strptimeFields_chars _ _ e, ?_⟩
      obtain ⟨y, mo, dd, hh, mi, sec⟩ := tup
      cases hc : (decide (1 ≤ y) && decide (dd ≤ daysInMonth y mo) && decide (sec ≤ 59)) <;>
        simp [hc] at h
      rw [← h]
  · obtain ⟨⟨t, dt, _, _, htime⟩, _⟩ := from_dict_ok_inv d r h
    simp [htime]

/-- Witness for the amended C6 at the documented padded time string and
the documented record. -/
theorem c6_time_format_amended_witness :
    ("2025-03-12T15:38:27Z".data.all strptimeAllowedChar = true) ∧
    c1Expected.time.utc = true :=
  ⟨(c6_time_format_amended.1 "2025-03-12T15:38:27Z" ⟨2025, 3, 12, 15, 38, 27, false⟩ (by rfl)).1,
   c6_time_format_amended.2.1 c1Record c1Expected (by rfl)⟩
